import Mathlib

/-!
Verification of the task-storage component (`pkg/storage.go`): a data-access
layer over the PostgreSQL relations `tasks`, `labels` and `task_labels`,
reached through a pgx connection pool.

The database contents visible behind the pool are modelled explicitly as a
`Storage.DB` value.  Each Go method on `*Storage` becomes a pure function on
`DB`: the SQL statement it submits is rendered as list filtering / joining /
sorting over the modelled relations, and the Go `error` return becomes an
`Option Storage.DBError` component (in this pure model the connection never
fails, so the only producible error is the `pgx.ErrNoRows` sentinel of the
single-row fetch).  The auto-increment sequence behind `tasks.id` and the
column defaults applied by `INSERT INTO tasks (title, content)` live in the
external schema, not in the repository; they are carried as explicit `DB`
fields (`nextID`, `defOpened`, ...) so that `NewTask` can be stated.

`DB.WF` records the schema-level invariants the external schema upholds:
primary-key uniqueness of `tasks.id` and `labels.id`, uniqueness of label
names, identifiers starting at 1 (so that 0 is free to act as the wildcard
sentinel of `Tasks`), and a de-duplicated `task_labels` association.
-/

namespace Storage

/-- Task row, mirroring `type Task struct` of `storage.go` (`ID`, `Opened`,
`Closed`, `AuthorID`, `AssignedID`, `Title`, `Content`). -/
structure Task where
  ID : Int
  Opened : Int
  Closed : Int
  AuthorID : Int
  AssignedID : Int
  Title : String
  Content : String
deriving DecidableEq, Repr

/-- Go zero value of `Task`: all integer fields 0, both strings empty.  It is
what `GetTaskByID` returns alongside a non-nil error. -/
def Task.zero : Task :=
  { ID := 0
    Opened := 0
    Closed := 0
    AuthorID := 0
    AssignedID := 0
    Title := ""
    Content := "" }

/-- Row of the `labels` relation: `labels(id PK, label TEXT)`. -/
structure LabelRow where
  id : Int
  label : String
deriving DecidableEq, Repr

/-- Row of the `task_labels` association relation:
`task_labels(task_id, label_id)`. -/
structure TaskLabelRow where
  task_id : Int
  label_id : Int
deriving DecidableEq, Repr

/-- Database contents reachable through the connection pool, together with the
schema-owned machinery the queries rely on: the `tasks.id` auto-increment
sequence (`nextID`) and the column defaults the schema applies on
`INSERT INTO tasks (title, content)`. -/
structure DB where
  tasks : List Task
  labels : List LabelRow
  task_labels : List TaskLabelRow
  nextID : Int
  defOpened : Int
  defClosed : Int
  defAuthorID : Int
  defAssignedID : Int
deriving DecidableEq, Repr

/-- Error taxonomy surfaced by the pgx calls: `noRows` models the
`pgx.ErrNoRows` sentinel that `QueryRow(...).Scan` returns when no row
matches, `queryError` models every other store/connection failure class. -/
inductive DBError where
  | noRows : DBError
  | queryError : String → DBError
deriving DecidableEq, Repr

/-- Schema-level invariants upheld by the external PostgreSQL schema:
unique `tasks.id`, identifiers in `[1, nextID)` with `nextID ≥ 1`
(auto-increment starting at 1, so 0 is never a real identifier), unique
`labels.id` and unique label names, and a de-duplicated `task_labels`
association. -/
abbrev DB.WF (db : DB) : Prop :=
  db.tasks.Pairwise (fun a b => a.ID ≠ b.ID) ∧
  (∀ t ∈ db.tasks, 1 ≤ t.ID ∧ t.ID < db.nextID) ∧
  1 ≤ db.nextID ∧
  db.labels.Pairwise (fun a b => a.id ≠ b.id ∧ a.label ≠ b.label) ∧
  db.task_labels.Nodup

/-- SQL `ORDER BY id` applied to a result set: sort ascending by the `id`
column. -/
def sortByID (l : List Task) : List Task :=
  List.insertionSort (fun a b => a.ID ≤ b.ID) l

/-- Model of `(s *Storage) Tasks(taskID, authorID int) ([]Task, error)`:
`SELECT ... FROM tasks WHERE ($1 = 0 OR id = $1) AND ($2 = 0 OR author_id = $2)
ORDER BY id;`.  In the pure model row iteration cannot fail, so `rows.Err()`
is nil. -/
def Tasks (db : DB) (taskID authorID : Int) : List Task × Option DBError :=
  (sortByID (db.tasks.filter fun t =>
      decide ((taskID = 0 ∨ t.ID = taskID) ∧ (authorID = 0 ∨ t.AuthorID = authorID))),
   none)

/-- Model of `(s *Storage) NewTask(t Task) (int, error)`:
`INSERT INTO tasks (title, content) VALUES ($1, $2) RETURNING id;`.
Only `t.Title` and `t.Content` are read; the identifier comes from the
auto-increment sequence and every other column from its schema default.
Returns the updated database, the new id, and the nil error. -/
def NewTask (db : DB) (t : Task) : DB × Int × Option DBError :=
  let row : Task :=
    { ID := db.nextID
      Opened := db.defOpened
      Closed := db.defClosed
      AuthorID := db.defAuthorID
      AssignedID := db.defAssignedID
      Title := t.Title
      Content := t.Content }
  ({ db with tasks := db.tasks ++ [row], nextID := db.nextID + 1 },
   db.nextID, none)

/-- Model of `(s *Storage) TasksByAuthor(authorID int) ([]Task, error)`:
`SELECT ... FROM tasks WHERE author_id = $1 ORDER BY id;`. -/
def TasksByAuthor (db : DB) (authorID : Int) : List Task × Option DBError :=
  (sortByID (db.tasks.filter fun t => decide (t.AuthorID = authorID)), none)

/-- Row set of the join in `TasksByLabel`:
`FROM tasks t INNER JOIN task_labels tl ON t.id = tl.task_id
INNER JOIN labels l ON tl.label_id = l.id WHERE l.label = $1`.
One triple per combination of rows satisfying the join and filter
conditions, exactly as SQL produces one output row per such combination. -/
def labelJoinRows (db : DB) (lbl : String) : List (Task × TaskLabelRow × LabelRow) :=
  db.tasks.flatMap fun t =>
    db.task_labels.flatMap fun tl =>
      (db.labels.filter fun l =>
          decide (t.ID = tl.task_id ∧ tl.label_id = l.id ∧ l.label = lbl)).map
        fun l => (t, tl, l)

/-- Model of `(s *Storage) TasksByLabel(label string) ([]Task, error)`: the
join above, projected onto the task columns (`SELECT t.id, ...`), ordered by
`t.id`.  The query has no `DISTINCT`. -/
def TasksByLabel (db : DB) (lbl : String) : List Task × Option DBError :=
  (sortByID ((labelJoinRows db lbl).map Prod.fst), none)

/-- Model of `(s *Storage) GetTaskByID(id int) (Task, error)`:
`SELECT ... FROM tasks WHERE id = $1;` through `QueryRow(...).Scan`.
`QueryRow` yields the first matching row; with zero matching rows `Scan`
returns `pgx.ErrNoRows` and the function returns the zero `Task`. -/
def GetTaskByID (db : DB) (id : Int) : Task × Option DBError :=
  match (db.tasks.filter fun t => decide (t.ID = id)).head? with
  | none => (Task.zero, some DBError.noRows)
  | some t => (t, none)

/-- Model of `(s *Storage) UpdateTask(id int, updatedTask Task) error`:
`UPDATE tasks SET opened = $1, closed = $2, author_id = $3, assigned_id = $4,
title = $5, content = $6 WHERE id = $7;`.  `setClause` is the effect of the
`SET` list on one matching row: every column except `id` is overwritten.  The
command tag (affected-row count) is discarded by the Go code, so the error is
nil whether or not any row matched. -/
def setClause (updatedTask t : Task) : Task :=
  { t with
    Opened := updatedTask.Opened
    Closed := updatedTask.Closed
    AuthorID := updatedTask.AuthorID
    AssignedID := updatedTask.AssignedID
    Title := updatedTask.Title
    Content := updatedTask.Content }

def UpdateTask (db : DB) (id : Int) (updatedTask : Task) : DB × Option DBError :=
  ({ db with tasks := db.tasks.map (fun t => if t.ID = id then setClause updatedTask t else t) },
   none)

/-- Model of `(s *Storage) DeleteTaskByID(id int) error`:
`DELETE FROM tasks WHERE id = $1;`.  The affected-row count is discarded, so
the error is nil whether or not a row existed. -/
def DeleteTaskByID (db : DB) (id : Int) : DB × Option DBError :=
  ({ db with tasks := db.tasks.filter fun t => decide (¬ t.ID = id) }, none)

/-- Positional bound parameter value submitted alongside a query text. -/
inductive SQLValue where
  | int : Int → SQLValue
  | text : String → SQLValue
deriving DecidableEq, Repr

/-- Query text of `Tasks` (whitespace condensed to single spaces). -/
def tasksQueryText : String :=
  "SELECT id, opened, closed, author_id, assigned_id, title, content FROM tasks WHERE ($1 = 0 OR id = $1) AND ($2 = 0 OR author_id = $2) ORDER BY id;"

/-- Query text and positional parameters `Tasks` submits to the pool. -/
def tasksQuery (taskID authorID : Int) : String × List SQLValue :=
  (tasksQueryText, [SQLValue.int taskID, SQLValue.int authorID])

/-- Query text of `NewTask` (whitespace condensed). -/
def newTaskQueryText : String :=
  "INSERT INTO tasks (title, content) VALUES ($1, $2) RETURNING id;"

/-- Query text and positional parameters `NewTask` submits to the pool. -/
def newTaskQuery (t : Task) : String × List SQLValue :=
  (newTaskQueryText, [SQLValue.text t.Title, SQLValue.text t.Content])

/-- Query text of `TasksByAuthor` (whitespace condensed). -/
def tasksByAuthorQueryText : String :=
  "SELECT id, opened, closed, author_id, assigned_id, title, content FROM tasks WHERE author_id = $1 ORDER BY id;"

/-- Query text and positional parameters `TasksByAuthor` submits. -/
def tasksByAuthorQuery (authorID : Int) : String × List SQLValue :=
  (tasksByAuthorQueryText, [SQLValue.int authorID])

/-- Query text of `TasksByLabel` (whitespace condensed). -/
def tasksByLabelQueryText : String :=
  "SELECT t.id, t.opened, t.closed, t.author_id, t.assigned_id, t.title, t.content FROM tasks t INNER JOIN task_labels tl ON t.id = tl.task_id INNER JOIN labels l ON tl.label_id = l.id WHERE l.label = $1 ORDER BY t.id;"

/-- Query text and positional parameters `TasksByLabel` submits. -/
def tasksByLabelQuery (lbl : String) : String × List SQLValue :=
  (tasksByLabelQueryText, [SQLValue.text lbl])

/-- Query text of `GetTaskByID` (whitespace condensed). -/
def getTaskByIDQueryText : String :=
  "SELECT id, opened, closed, author_id, assigned_id, title, content FROM tasks WHERE id = $1;"

/-- Query text and positional parameters `GetTaskByID` submits. -/
def getTaskByIDQuery (id : Int) : String × List SQLValue :=
  (getTaskByIDQueryText, [SQLValue.int id])

/-- Query text of `UpdateTask` (whitespace condensed). -/
def updateTaskQueryText : String :=
  "UPDATE tasks SET opened = $1, closed = $2, author_id = $3, assigned_id = $4, title = $5, content = $6 WHERE id = $7;"

/-- Query text and positional parameters `UpdateTask` submits. -/
def updateTaskQuery (id : Int) (updatedTask : Task) : String × List SQLValue :=
  (updateTaskQueryText,
   [SQLValue.int updatedTask.Opened, SQLValue.int updatedTask.Closed,
    SQLValue.int updatedTask.AuthorID, SQLValue.int updatedTask.AssignedID,
    SQLValue.text updatedTask.Title, SQLValue.text updatedTask.Content,
    SQLValue.int id])

/-- Query text of `DeleteTaskByID` (whitespace condensed). -/
def deleteTaskByIDQueryText : String :=
  "DELETE FROM tasks WHERE id = $1;"

/-- Query text and positional parameters `DeleteTaskByID` submits. -/
def deleteTaskByIDQuery (id : Int) : String × List SQLValue :=
  (deleteTaskByIDQueryText, [SQLValue.int id])

/-- Example task used to instantiate the theorems on concrete data. -/
def exTask : Task :=
  { ID := 1
    Opened := 10
    Closed := 0
    AuthorID := 2
    AssignedID := 3
    Title := "T"
    Content := "C" }

/-- Example well-formed database: one task, one label attached to it. -/
def exDB : DB :=
  { tasks := [exTask]
    labels := [{ id := 1, label := "bug" }]
    task_labels := [{ task_id := 1, label_id := 1 }]
    nextID := 2
    defOpened := 0
    defClosed := 0
    defAuthorID := 0
    defAssignedID := 0 }

/-- Database whose `task_labels` association holds the same (task, label)
pair twice — the situation the external schema is supposed to rule out. -/
def dupDB : DB :=
  { tasks := [exTask]
    labels := [{ id := 1, label := "bug" }]
    task_labels := [{ task_id := 1, label_id := 1 }, { task_id := 1, label_id := 1 }]
    nextID := 2
    defOpened := 0
    defClosed := 0
    defAuthorID := 0
    defAssignedID := 0 }

/-- Label name used in concrete instances. -/
def bugLabel : String := "bug"

instance : IsTotal Task (fun a b => a.ID ≤ b.ID) :=
  ⟨fun a b => Int.le_total a.ID b.ID⟩

instance : IsTrans Task (fun a b => a.ID ≤ b.ID) :=
  ⟨fun _ _ _ hab hbc => le_trans hab hbc⟩

lemma mem_sortByID {l : List Task} {t : Task} : t ∈ sortByID l ↔ t ∈ l :=
  List.mem_insertionSort _

lemma sortByID_perm (l : List Task) : (sortByID l).Perm l :=
  List.perm_insertionSort _ l

lemma sortByID_pairwise_lt {l : List Task} (h : l.Pairwise fun a b => a.ID ≠ b.ID) :
    (sortByID l).Pairwise fun a b => a.ID < b.ID := by
  have hs : (sortByID l).Pairwise fun a b => a.ID ≤ b.ID :=
    List.sorted_insertionSort _ l
  have hne : (sortByID l).Pairwise fun a b => a.ID ≠ b.ID :=
    ((sortByID_perm l).pairwise_iff fun hab => Ne.symm hab).mpr h
  exact (hs.and hne).imp fun hab => lt_of_le_of_ne hab.1 hab.2

lemma pairwise_ne_filter {db : DB} (hwf : db.WF) (p : Task → Bool) :
    (db.tasks.filter p).Pairwise fun a b => a.ID ≠ b.ID :=
  hwf.1.sublist (List.filter_sublist _)

lemma filter_id_eq_nil {l : List Task} {id : Int} (h : ∀ t ∈ l, t.ID ≠ id) :
    (l.filter fun t => decide (t.ID = id)) = [] :=
  List.filter_eq_nil_iff.mpr fun t ht => by simpa using h t ht

lemma getTaskByID_of_no_match {db : DB} {id : Int} (h : ∀ t ∈ db.tasks, t.ID ≠ id) :
    GetTaskByID db id = (Task.zero, some DBError.noRows) := by
  unfold GetTaskByID
  rw [filter_id_eq_nil h]
  rfl

lemma mem_Tasks {db : DB} {a b : Int} {t : Task} :
    t ∈ (Tasks db a b).1 ↔
      t ∈ db.tasks ∧ (a = 0 ∨ t.ID = a) ∧ (b = 0 ∨ t.AuthorID = b) := by
  simp [Tasks, mem_sortByID, List.mem_filter]

lemma mem_TasksByAuthor {db : DB} {a : Int} {t : Task} :
    t ∈ (TasksByAuthor db a).1 ↔ t ∈ db.tasks ∧ t.AuthorID = a := by
  simp [TasksByAuthor, mem_sortByID, List.mem_filter]

lemma mem_labelJoinRows {db : DB} {lbl : String} {r : Task × TaskLabelRow × LabelRow} :
    r ∈ labelJoinRows db lbl ↔
      r.1 ∈ db.tasks ∧ r.2.1 ∈ db.task_labels ∧ r.2.2 ∈ db.labels ∧
        r.1.ID = r.2.1.task_id ∧ r.2.1.label_id = r.2.2.id ∧ r.2.2.label = lbl := by
  obtain ⟨t, tl, l⟩ := r
  simp only [labelJoinRows, List.mem_flatMap, List.mem_map, List.mem_filter,
    decide_eq_true_eq, Prod.mk.injEq]
  constructor
  · rintro ⟨a, ha, c, hc, e, ⟨he, h1, h2, h3⟩, rfl, rfl, rfl⟩
    exact ⟨ha, hc, he, h1, h2, h3⟩
  · rintro ⟨ht, htl, hl, h1, h2, h3⟩
    exact ⟨t, ht, tl, htl, l, ⟨hl, h1, h2, h3⟩, rfl, rfl, rfl⟩

lemma tasks_nodup {db : DB} (hwf : db.WF) : db.tasks.Nodup :=
  hwf.1.imp fun hab => fun he => hab (he ▸ rfl)

lemma labels_nodup {db : DB} (hwf : db.WF) : db.labels.Nodup :=
  hwf.2.2.2.1.imp fun hab => fun he => hab.1 (he ▸ rfl)

lemma task_id_injOn {db : DB} (hwf : db.WF) :
    ∀ a ∈ db.tasks, ∀ b ∈ db.tasks, a.ID = b.ID → a = b := by
  intro a ha b hb hid
  by_contra hne
  exact hwf.1.forall (by intro x y h; exact Ne.symm h) ha hb hne hid

lemma label_name_injOn {db : DB} (hwf : db.WF) :
    ∀ a ∈ db.labels, ∀ b ∈ db.labels, a.label = b.label → a = b := by
  intro a ha b hb hl
  by_contra hne
  exact (hwf.2.2.2.1.forall (by intro x y h; exact ⟨Ne.symm h.1, Ne.symm h.2⟩) ha hb hne).2 hl

lemma labelJoinRows_nodup {db : DB} (hwf : db.WF) (lbl : String) :
    (labelJoinRows db lbl).Nodup := by
  rw [labelJoinRows, List.nodup_flatMap]
  constructor
  · intro t _
    rw [List.nodup_flatMap]
    constructor
    · intro tl _
      exact ((labels_nodup hwf).filter _).map fun l1 l2 h => by simpa using h
    · refine List.Pairwise.imp ?_ hwf.2.2.2.2
      intro tl1 tl2 hne x hx1 hx2
      simp only [List.mem_map, List.mem_filter] at hx1 hx2
      obtain ⟨l1, _, rfl⟩ := hx1
      obtain ⟨l2, _, heq⟩ := hx2
      exact hne (congrArg (fun r => r.2.1) heq).symm
  · refine List.Pairwise.imp ?_ hwf.1
    intro t1 t2 hne x hx1 hx2
    simp only [List.mem_flatMap, List.mem_map, List.mem_filter] at hx1 hx2
    obtain ⟨tl1, _, l1, _, rfl⟩ := hx1
    obtain ⟨tl2, _, l2, _, heq⟩ := hx2
    exact hne (congrArg (fun r => r.1.ID) heq).symm

lemma labelJoinRows_fst_nodup {db : DB} (hwf : db.WF) (lbl : String) :
    ((labelJoinRows db lbl).map Prod.fst).Nodup := by
  refine (labelJoinRows_nodup hwf lbl).map_on ?_
  intro r hr s hs hfst
  obtain ⟨t1, tl1, l1⟩ := r
  obtain ⟨t2, tl2, l2⟩ := s
  rw [mem_labelJoinRows] at hr hs
  simp only at hr hs hfst
  cases hfst
  have hl : l1 = l2 :=
    label_name_injOn hwf l1 hr.2.2.1 l2 hs.2.2.1 (by rw [hr.2.2.2.2.2, hs.2.2.2.2.2])
  cases hl
  have htl : tl1 = tl2 := by
    have h1 : tl1.task_id = tl2.task_id := by rw [← hr.2.2.2.1, ← hs.2.2.2.1]
    have h2 : tl1.label_id = tl2.label_id := by rw [hr.2.2.2.2.1, hs.2.2.2.2.1]
    cases tl1; cases tl2; simp_all
  cases htl
  rfl

lemma labelJoinRows_fst_pairwise {db : DB} (hwf : db.WF) (lbl : String) :
    ((labelJoinRows db lbl).map Prod.fst).Pairwise fun a b => a.ID ≠ b.ID := by
  have hmem : ∀ x ∈ (labelJoinRows db lbl).map Prod.fst, x ∈ db.tasks := by
    intro x hx
    simp only [List.mem_map] at hx
    obtain ⟨r, hr, rfl⟩ := hx
    exact (mem_labelJoinRows.mp hr).1
  refine List.Pairwise.imp_of_mem ?_ (labelJoinRows_fst_nodup hwf lbl)
  intro a b ha hb hne hid
  exact hne (task_id_injOn hwf a (hmem a ha) b (hmem b hb) hid)

lemma mem_TasksByLabel {db : DB} {lbl : String} {t : Task} :
    t ∈ (TasksByLabel db lbl).1 ↔
      t ∈ db.tasks ∧ ∃ tl ∈ db.task_labels, ∃ l ∈ db.labels,
        t.ID = tl.task_id ∧ tl.label_id = l.id ∧ l.label = lbl := by
  simp only [TasksByLabel, mem_sortByID, List.mem_map]
  constructor
  · rintro ⟨r, hr, rfl⟩
    rw [mem_labelJoinRows] at hr
    exact ⟨hr.1, r.2.1, hr.2.1, r.2.2, hr.2.2.1, hr.2.2.2.1, hr.2.2.2.2.1, hr.2.2.2.2.2⟩
  · rintro ⟨ht, tl, htl, l, hl, h1, h2, h3⟩
    exact ⟨(t, tl, l), mem_labelJoinRows.mpr ⟨ht, htl, hl, h1, h2, h3⟩, rfl⟩

lemma setClause_eq (v t : Task) : setClause v t = { v with ID := t.ID } := rfl

lemma updateTask_tasks (db : DB) (id : Int) (v : Task) :
    (UpdateTask db id v).1.tasks =
      db.tasks.map (fun t => if t.ID = id then setClause v t else t) := rfl

lemma filter_update_of_mem {l : List Task} {id : Int}
    (hpw : l.Pairwise fun a b => a.ID ≠ b.ID) (hex : ∃ t ∈ l, t.ID = id) (v : Task) :
    ((l.map fun t => if t.ID = id then setClause v t else t).filter
        fun t => decide (t.ID = id)) = [{ v with ID := id }] := by
  induction l with
  | nil => exact absurd hex (by simp)
  | cons a l ih =>
    have hpw' := List.pairwise_cons.mp hpw
    by_cases h : a.ID = id
    · have hrest : ∀ u ∈ l, u.ID ≠ id := fun u hu he => hpw'.1 u hu (h.trans he.symm)
      have hmaprest : ((l.map fun t => if t.ID = id then setClause v t else t).filter
          fun t => decide (t.ID = id)) = [] := by
        refine List.filter_eq_nil_iff.mpr ?_
        intro x hx
        simp only [List.mem_map] at hx
        obtain ⟨u, hu, rfl⟩ := hx
        rw [if_neg (hrest u hu)]
        simpa using hrest u hu
      have hid : (setClause v a).ID = id := h
      simp only [List.map_cons, List.filter_cons, if_pos h, hid, decide_True,
        if_true, hmaprest]
      rw [setClause_eq, h]
    · have hex' : ∃ t ∈ l, t.ID = id := by
        rcases hex with ⟨t, ht, htid⟩
        rcases List.mem_cons.mp ht with rfl | htl
        · exact absurd htid h
        · exact ⟨t, htl, htid⟩
      simp only [List.map_cons, List.filter_cons, if_neg h]
      rw [ih hpw'.2 hex']
      simp [h]

/-- Claim C1: `Tasks(taskID, authorID)` returns exactly the stored tasks
satisfying (`taskID = 0` OR `id = taskID`) AND (`authorID = 0` OR
`author_id = authorID`), in strictly ascending `id` order; `Tasks(0, 0)`
returns every stored task; and when no task matches, the result is the empty
sequence with a nil error. -/
theorem Tasks_spec (db : DB) (hwf : db.WF) (taskID authorID : Int) :
    (∀ t, t ∈ (Tasks db taskID authorID).1 ↔
        t ∈ db.tasks ∧ (taskID = 0 ∨ t.ID = taskID) ∧ (authorID = 0 ∨ t.AuthorID = authorID)) ∧
    (Tasks db taskID authorID).1.Pairwise (fun a b => a.ID < b.ID) ∧
    (∀ t, t ∈ (Tasks db 0 0).1 ↔ t ∈ db.tasks) ∧
    ((∀ t ∈ db.tasks,
        ¬((taskID = 0 ∨ t.ID = taskID) ∧ (authorID = 0 ∨ t.AuthorID = authorID))) →
      Tasks db taskID authorID = ([], none)) := by
  refine ⟨fun t => mem_Tasks, ?_, fun t => ?_, fun hnone => ?_⟩
  · exact sortByID_pairwise_lt (pairwise_ne_filter hwf _)
  · rw [mem_Tasks]
    simp
  · have hnil : (db.tasks.filter fun t =>
        decide ((taskID = 0 ∨ t.ID = taskID) ∧ (authorID = 0 ∨ t.AuthorID = authorID))) = [] :=
      List.filter_eq_nil_iff.mpr fun t ht => by simpa using hnone t ht
    unfold Tasks
    rw [hnil]
    rfl

/-- Claim C1 witness: on the concrete database `exDB`, filtering on the
identifier of the stored task returns it. -/
theorem Tasks_spec_witness : exTask ∈ (Tasks exDB 1 0).1 :=
  ((Tasks_spec exDB (by decide) 1 0).1 exTask).mpr (by decide)

/-- Claim C2 counterexample: with the same (task, label) pair stored twice in
the `task_labels` association, `TasksByLabel` returns the task twice.  The
query has no `DISTINCT`, so a task associated with the label more than once
in the association relation does produce duplicate result rows, contrary to
the claim as stated. -/
theorem TasksByLabel_dup_counterexample :
    dupDB.task_labels = [{ task_id := 1, label_id := 1 }, { task_id := 1, label_id := 1 }] ∧
    (TasksByLabel dupDB bugLabel).1 = [exTask, exTask] ∧
    ¬ (TasksByLabel dupDB bugLabel).1.Nodup :=
  ⟨rfl, by decide, by decide⟩

/-- Claim C2 (amended): `TasksByLabel(label)` returns exactly the stored tasks
associated through `task_labels` with a label whose textual name equals the
input, ordered strictly ascending by task `id` and without duplicate rows,
provided the schema-side invariants hold (de-duplicated association relation,
unique label names and identifiers); in general the query yields one output
row per matching association row. -/
theorem TasksByLabel_spec (db : DB) (hwf : db.WF) (lbl : String) :
    (∀ t, t ∈ (TasksByLabel db lbl).1 ↔
        t ∈ db.tasks ∧ ∃ tl ∈ db.task_labels, ∃ l ∈ db.labels,
          t.ID = tl.task_id ∧ tl.label_id = l.id ∧ l.label = lbl) ∧
    (TasksByLabel db lbl).1.Pairwise (fun a b => a.ID < b.ID) ∧
    (TasksByLabel db lbl).1.Nodup := by
  have hpw := sortByID_pairwise_lt (labelJoinRows_fst_pairwise hwf lbl)
  refine ⟨fun t => mem_TasksByLabel, hpw, ?_⟩
  refine List.Pairwise.imp ?_ hpw
  intro a b hlt he
  exact absurd (he ▸ hlt) (lt_irrefl _)

/-- Claim C2 witness: on `exDB` the stored task is returned for its label. -/
theorem TasksByLabel_spec_witness : exTask ∈ (TasksByLabel exDB bugLabel).1 :=
  ((TasksByLabel_spec exDB (by decide) bugLabel).1 exTask).mpr (by decide)

/-- Claim C3: fetching an identifier with no stored task yields the no-rows
(not-found) error, and that error is a constructor distinct from the
query/connection error class, so a caller can branch on existence without
inspecting error text. -/
theorem GetTaskByID_missing (db : DB) (id : Int) (h : ∀ t ∈ db.tasks, t.ID ≠ id) :
    GetTaskByID db id = (Task.zero, some DBError.noRows) ∧
    (∀ s : String, (DBError.noRows : DBError) ≠ DBError.queryError s) :=
  ⟨getTaskByID_of_no_match h, fun _ hcontra => DBError.noConfusion hcontra⟩

/-- Claim C3 witness: identifier 5 was never created in `exDB`. -/
theorem GetTaskByID_missing_witness :
    GetTaskByID exDB 5 = (Task.zero, some DBError.noRows) :=
  (GetTaskByID_missing exDB 5 (by decide)).1

/-- Claim C4: `NewTask(t)` consumes only `t.Title` and `t.Content` (any two
argument tasks agreeing on those two fields produce identical results — the
caller-supplied `ID`, `Opened`, `Closed`, `AuthorID`, `AssignedID` are
ignored), and a subsequent `GetTaskByID` on the returned identifier succeeds
with a task carrying that identifier, the same title and the same content. -/
theorem NewTask_spec (db : DB) (hwf : db.WF) (t : Task) :
    (∀ u : Task, u.Title = t.Title → u.Content = t.Content → NewTask db u = NewTask db t) ∧
    (GetTaskByID (NewTask db t).1 (NewTask db t).2.1).1.ID = (NewTask db t).2.1 ∧
    (GetTaskByID (NewTask db t).1 (NewTask db t).2.1).1.Title = t.Title ∧
    (GetTaskByID (NewTask db t).1 (NewTask db t).2.1).1.Content = t.Content ∧
    (GetTaskByID (NewTask db t).1 (NewTask db t).2.1).2 = none := by
  have hnil : (db.tasks.filter fun u => decide (u.ID = db.nextID)) = [] :=
    filter_id_eq_nil fun u hu => ne_of_lt (hwf.2.1 u hu).2
  have hrow : GetTaskByID (NewTask db t).1 (NewTask db t).2.1 =
      ({ ID := db.nextID
         Opened := db.defOpened
         Closed := db.defClosed
         AuthorID := db.defAuthorID
         AssignedID := db.defAssignedID
         Title := t.Title
         Content := t.Content }, none) := by
    unfold GetTaskByID NewTask
    simp [List.filter_append, hnil]
  refine ⟨fun u h1 h2 => ?_, ?_, ?_, ?_, ?_⟩
  · unfold NewTask
    rw [h1, h2]
  · rw [hrow]
    rfl
  · rw [hrow]
  · rw [hrow]
  · rw [hrow]

/-- Claim C4 witness: creating a task in `exDB` with junk metadata fields and
title "T2" stores it under the fresh identifier with that title. -/
theorem NewTask_spec_witness :
    (GetTaskByID (NewTask exDB (Task.mk 99 98 97 96 95 "T2" "C2")).1
        (NewTask exDB (Task.mk 99 98 97 96 95 "T2" "C2")).2.1).1.Title = "T2" :=
  (NewTask_spec exDB (by decide) (Task.mk 99 98 97 96 95 "T2" "C2")).2.2.1

/-- Claim C5: on an existing identifier, `UpdateTask(id, newValues)`
overwrites the six mutable columns and never the `id`: the update reports no
error and a subsequent `GetTaskByID(id)` returns exactly `newValues` with the
`ID` field unchanged (overwrite, not merge). -/
theorem UpdateTask_spec (db : DB) (hwf : db.WF) (id : Int) (newValues : Task)
    (hex : ∃ t ∈ db.tasks, t.ID = id) :
    (UpdateTask db id newValues).2 = none ∧
    GetTaskByID (UpdateTask db id newValues).1 id = ({ newValues with ID := id }, none) := by
  refine ⟨rfl, ?_⟩
  unfold GetTaskByID
  rw [updateTask_tasks, filter_update_of_mem hwf.1 hex newValues]
  rfl

/-- Claim C5 witness: overwriting the stored task 1 of `exDB` with fresh
values and reading it back returns those values with identifier 1. -/
theorem UpdateTask_spec_witness :
    GetTaskByID (UpdateTask exDB 1 (Task.mk 7 20 30 4 5 "T3" "C3")).1 1 =
      (Task.mk 1 20 30 4 5 "T3" "C3", none) :=
  (UpdateTask_spec exDB (by decide) 1 (Task.mk 7 20 30 4 5 "T3" "C3") (by decide)).2

/-- Claim C6: updating an identifier that matches no stored task succeeds with
a nil error and zero rows affected — the database is unchanged; "no rows
updated" is not an error condition. -/
theorem UpdateTask_missing (db : DB) (id : Int) (v : Task)
    (h : ∀ t ∈ db.tasks, t.ID ≠ id) :
    UpdateTask db id v = (db, none) := by
  unfold UpdateTask
  have hmap : (db.tasks.map fun t => if t.ID = id then setClause v t else t) = db.tasks := by
    rw [List.map_congr_left fun t ht => if_neg (h t ht)]
    exact List.map_id' db.tasks
  rw [hmap]

/-- Claim C6 witness: identifier 99 does not exist in `exDB`. -/
theorem UpdateTask_missing_witness :
    UpdateTask exDB 99 (Task.mk 7 20 30 4 5 "T3" "C3") = (exDB, none) :=
  UpdateTask_missing exDB 99 (Task.mk 7 20 30 4 5 "T3" "C3") (by decide)

/-- Claim C7: delete is idempotent at the interface: for any database and
identifier (existing or not) it reports no error, a subsequent `GetTaskByID`
on that identifier yields the no-rows error, and deleting the same identifier
a second time reports no error and leaves the state unchanged. -/
theorem DeleteTaskByID_spec (db : DB) (id : Int) :
    (DeleteTaskByID db id).2 = none ∧
    GetTaskByID (DeleteTaskByID db id).1 id = (Task.zero, some DBError.noRows) ∧
    DeleteTaskByID (DeleteTaskByID db id).1 id = ((DeleteTaskByID db id).1, none) := by
  refine ⟨rfl, ?_, ?_⟩
  · refine getTaskByID_of_no_match ?_
    intro t ht
    have hmem : t ∈ db.tasks.filter fun u => decide (¬ u.ID = id) := ht
    simpa using (List.mem_filter.mp hmem).2
  · unfold DeleteTaskByID
    simp [List.filter_filter]

/-- Claim C9: each storage operation submits a single constant query text —
with the optional filters rendered as `($1 = 0 OR id = $1)`-shaped predicates
inside that constant text — and the argument values reach the store only in
the positional bound-parameter list, never interpolated into the text. -/
theorem queries_static :
    (∀ a b : Int, tasksQuery a b = (tasksQueryText, [SQLValue.int a, SQLValue.int b])) ∧
    (∀ t : Task, newTaskQuery t =
      (newTaskQueryText, [SQLValue.text t.Title, SQLValue.text t.Content])) ∧
    (∀ a : Int, tasksByAuthorQuery a = (tasksByAuthorQueryText, [SQLValue.int a])) ∧
    (∀ s : String, tasksByLabelQuery s = (tasksByLabelQueryText, [SQLValue.text s])) ∧
    (∀ i : Int, getTaskByIDQuery i = (getTaskByIDQueryText, [SQLValue.int i])) ∧
    (∀ i : Int, ∀ u : Task, updateTaskQuery i u =
      (updateTaskQueryText,
       [SQLValue.int u.Opened, SQLValue.int u.Closed, SQLValue.int u.AuthorID,
        SQLValue.int u.AssignedID, SQLValue.text u.Title, SQLValue.text u.Content,
        SQLValue.int i])) ∧
    (∀ i : Int, deleteTaskByIDQuery i = (deleteTaskByIDQueryText, [SQLValue.int i])) :=
  ⟨fun _ _ => rfl, fun _ => rfl, fun _ => rfl, fun _ => rfl, fun _ => rfl,
   fun _ _ => rfl, fun _ => rfl⟩

/-- Claim C8: `TasksByAuthor(authorID)` treats its argument literally (no
zero-as-wildcard: 0 matches only tasks whose `author_id` is exactly 0): it
returns exactly the stored tasks with `author_id = authorID`, in ascending
`id` order, and the empty sequence with a nil error when none match. -/
theorem TasksByAuthor_spec (db : DB) (hwf : db.WF) (authorID : Int) :
    (∀ t, t ∈ (TasksByAuthor db authorID).1 ↔ t ∈ db.tasks ∧ t.AuthorID = authorID) ∧
    (TasksByAuthor db authorID).1.Pairwise (fun a b => a.ID < b.ID) ∧
    (∀ t, t ∈ (TasksByAuthor db 0).1 ↔ t ∈ db.tasks ∧ t.AuthorID = 0) ∧
    ((∀ t ∈ db.tasks, t.AuthorID ≠ authorID) → TasksByAuthor db authorID = ([], none)) := by
  refine ⟨fun t => mem_TasksByAuthor, ?_, fun t => mem_TasksByAuthor, fun hnone => ?_⟩
  · exact sortByID_pairwise_lt (pairwise_ne_filter hwf _)
  · have hnil : (db.tasks.filter fun t => decide (t.AuthorID = authorID)) = [] :=
      List.filter_eq_nil_iff.mpr fun t ht => by simpa using hnone t ht
    unfold TasksByAuthor
    rw [hnil]
    rfl

/-- Claim C8 witness: the stored task of `exDB` has author 2. -/
theorem TasksByAuthor_spec_witness : exTask ∈ (TasksByAuthor exDB 2).1 :=
  ((TasksByAuthor_spec exDB (by decide) 2).1 exTask).mpr (by decide)

/-- Claim C10: whenever `GetTaskByID` returns a non-nil error (in this pure
model, the no-rows case), the task component of its result is exactly the Go
zero-value `Task`: no partially decoded task accompanies an error. -/
theorem GetTaskByID_zero_on_error (db : DB) (id : Int)
    (h : (GetTaskByID db id).2 ≠ none) :
    (GetTaskByID db id).1 = Task.zero := by
  unfold GetTaskByID at h ⊢
  cases hh : (db.tasks.filter fun t => decide (t.ID = id)).head? with
  | none => rfl
  | some t =>
    rw [hh] at h
    exact absurd rfl h

/-- Claim C10 witness: the failing fetch of identifier 5 from `exDB` returns
the zero task. -/
theorem GetTaskByID_zero_on_error_witness : (GetTaskByID exDB 5).1 = Task.zero :=
  GetTaskByID_zero_on_error exDB 5 (by decide)

end Storage
